import Mathlib

/-!
Shallow embedding of the ray-tracing core of `sol-rs` (acceleration
structures, scene description and shader binding table), translated from
`src/ray/sbt.rs`, `src/ray/acceleration.rs`, `src/ray/mod.rs`,
`src/buffer.rs` and `src/scene/mesh.rs`.

Machine integers are modelled as `Nat` with explicit `% 2 ^ 32` where the
Rust `u32` arithmetic can wrap.  Calls into the Vulkan device (memory
requirement queries, handle creation, device addresses, shader group
handles) are modelled as oracle functions supplied as parameters, and
fresh driver handles are drawn from an explicit counter.  Rust panics
(`unwrap`, `assert!`, out-of-range indexing, missing hash-map keys) are
modelled with `Option`.
-/

namespace SolRs

/-- The helper `align_up` of `src/ray/sbt.rs` (lines 9-11):
`(x + (a - 1)) & !(a - 1)` in `u32` arithmetic. -/
def align_up (x a : Nat) : Nat :=
  ((x + (a - 1)) % 2 ^ 32) &&& ((2 ^ 32 - 1) ^^^ (a - 1))

/-- `ShaderBindingTableInfo` of `src/ray/sbt.rs`: the ordered raygen, miss
and hit-group shader stage index lists. -/
structure ShaderBindingTableInfo where
  raygen_indices : List Nat
  miss_indices : List Nat
  hit_group_indices : List Nat
  deriving DecidableEq

/-- `ShaderBindingTableInfo::raygen_count` as written in the source
(sbt.rs line 43): it returns the length of `miss_indices`. -/
def ShaderBindingTableInfo.raygen_count (info : ShaderBindingTableInfo) : Nat :=
  info.miss_indices.length

/-- `ShaderBindingTableInfo::miss_count` as written in the source
(sbt.rs line 46): it returns the length of `raygen_indices`. -/
def ShaderBindingTableInfo.miss_count (info : ShaderBindingTableInfo) : Nat :=
  info.raygen_indices.length

/-- `ShaderBindingTableInfo::hitgroup_count`. -/
def ShaderBindingTableInfo.hitgroup_count (info : ShaderBindingTableInfo) : Nat :=
  info.hit_group_indices.length

/-- `ShaderBindingTableInfo::get_total_group_count`. -/
def ShaderBindingTableInfo.get_total_group_count (info : ShaderBindingTableInfo) : Nat :=
  info.raygen_count + info.miss_count + info.hitgroup_count

/-- `vk::StridedDeviceAddressRegionKHR`. -/
structure StridedDeviceAddressRegion where
  device_address : Nat
  stride : Nat
  size : Nat
  deriving DecidableEq

/-- A shader-binding-table region buffer: its byte contents and the
device address the driver assigned to it. -/
structure SbtBuffer where
  data : List Nat
  device_address : Nat
  deriving DecidableEq

/-- The device-reported properties and address assignment consumed by
`ShaderBindingTable::new`: the opaque shader-group handle size, the
minimum region alignment, and the device address assigned to the n-th
buffer the constructor creates. -/
structure SbtDevice where
  shader_group_handle_size : Nat
  shader_group_base_alignment : Nat
  buffer_address : Nat → Nat

/-- `ShaderBindingTable` of `src/ray/sbt.rs`. -/
structure ShaderBindingTable where
  raygen_sbt_address : StridedDeviceAddressRegion
  raygen_sbt_buffer : Option SbtBuffer
  miss_sbt_address : StridedDeviceAddressRegion
  miss_sbt_buffer : Option SbtBuffer
  hit_sbt_address : StridedDeviceAddressRegion
  hit_sbt_buffer : Option SbtBuffer
  callable_sbt_address : StridedDeviceAddressRegion
  callable_sbt_buffer : Option SbtBuffer

/-- The `create_binding_table` closure inside `ShaderBindingTable::new`
(sbt.rs lines 89-118): for a zero entry count no buffer is made;
otherwise slot `dst` of the zero-initialised data receives the
`shader_group_handle_size` bytes of group handle `dst + entry_offset`,
the rest of each `prog_size`-byte slot staying zero. -/
def create_binding_table (prog_size shader_group_handle_size : Nat)
    (group_handles : List Nat) (address : Nat)
    (entry_offset entry_count : Nat) : Option SbtBuffer :=
  if entry_count = 0 then none
  else
    some
      { data :=
          (List.range entry_count).flatMap (fun dst =>
            ((group_handles.drop ((dst + entry_offset) * shader_group_handle_size)).take
                shader_group_handle_size) ++
              List.replicate (prog_size - shader_group_handle_size) 0)
        device_address := address }

/-- `ShaderBindingTable::new` (sbt.rs lines 71-165).  `group_handles` is
the byte vector the device returns for the pipeline's shader groups
(raygen groups first, then miss, then hit groups).  Note the source sets
`prog_size = shader_group_handle_size` directly; `align_up` is not
applied. -/
def ShaderBindingTable.new (dev : SbtDevice) (group_handles : List Nat)
    (info : ShaderBindingTableInfo) : ShaderBindingTable :=
  let shader_group_handle_size := dev.shader_group_handle_size
  let prog_size := shader_group_handle_size
  let raygen_sbt_buffer :=
    create_binding_table prog_size shader_group_handle_size group_handles
      (dev.buffer_address 0) 0 info.raygen_count
  let miss_sbt_buffer :=
    create_binding_table prog_size shader_group_handle_size group_handles
      (dev.buffer_address 1) info.raygen_count info.miss_count
  let hit_sbt_buffer :=
    create_binding_table prog_size shader_group_handle_size group_handles
      (dev.buffer_address 2) (info.raygen_count + info.miss_count) info.hitgroup_count
  { raygen_sbt_address :=
      { device_address := (raygen_sbt_buffer.map SbtBuffer.device_address).getD 0
        stride := prog_size
        size := prog_size * info.raygen_count }
    raygen_sbt_buffer := raygen_sbt_buffer
    miss_sbt_address :=
      { device_address := (miss_sbt_buffer.map SbtBuffer.device_address).getD 0
        stride := prog_size
        size := prog_size * info.miss_count }
    miss_sbt_buffer := miss_sbt_buffer
    hit_sbt_address :=
      { device_address := (hit_sbt_buffer.map SbtBuffer.device_address).getD 0
        stride := prog_size
        size := prog_size * info.hitgroup_count }
    hit_sbt_buffer := hit_sbt_buffer
    callable_sbt_address := { device_address := 0, stride := 0, size := 0 }
    callable_sbt_buffer := none }

/-- C1: at the spec's own example (handle_size = 32, alignment = 64,
1 raygen / 1 miss / 2 hitgroups) the code gives every region stride 32 —
the raw handle size, since `ShaderBindingTable::new` never applies
`align_up` — and region sizes 32 / 32 / 64, while the claim requires
stride `align_up 32 64 = 64`, sizes 64 / 64 / 128 and
`stride % alignment = 0`. -/
theorem sbt_stride_ignores_alignment_at_spec_example :
    let dev : SbtDevice :=
      { shader_group_handle_size := 32
        shader_group_base_alignment := 64
        buffer_address := fun _ => 4096 }
    let info : ShaderBindingTableInfo :=
      { raygen_indices := [0], miss_indices := [1], hit_group_indices := [2, 3] }
    let t := ShaderBindingTable.new dev (List.replicate 128 7) info
    align_up 32 64 = 64 ∧
      t.raygen_sbt_address.stride = 32 ∧
      t.miss_sbt_address.stride = 32 ∧
      t.hit_sbt_address.stride = 32 ∧
      t.raygen_sbt_address.size = 32 ∧
      t.miss_sbt_address.size = 32 ∧
      t.hit_sbt_address.size = 64 ∧
      ¬t.raygen_sbt_address.stride % 64 = 0 := by
  decide

/-- C2: with 1 raygen, 2 miss and 1 hit-group index and handle size 1,
the bytes of the pipeline's group handles being `[10, 20, 30, 40]`
(raygen `10`, miss `20, 30`, hit `40`), the raygen region has size
`stride * 2` (the miss count) instead of `stride * 1`, and its contents
are `[10, 20]` — a raygen handle followed by a miss handle — because the
source bodies of `raygen_count` and `miss_count` return each other's
list length.  The miss region is sized for one record and holds `[30]`,
missing handle `20`. -/
theorem sbt_raygen_miss_counts_swapped :
    let dev : SbtDevice :=
      { shader_group_handle_size := 1
        shader_group_base_alignment := 1
        buffer_address := fun _ => 4096 }
    let info : ShaderBindingTableInfo :=
      { raygen_indices := [0], miss_indices := [1, 2], hit_group_indices := [3] }
    let t := ShaderBindingTable.new dev [10, 20, 30, 40] info
    t.raygen_sbt_address.size = t.raygen_sbt_address.stride * 2 ∧
      ¬t.raygen_sbt_address.size =
          t.raygen_sbt_address.stride * info.raygen_indices.length ∧
      t.miss_sbt_address.size = t.miss_sbt_address.stride * 1 ∧
      (t.raygen_sbt_buffer.map SbtBuffer.data) = some [10, 20] ∧
      (t.miss_sbt_buffer.map SbtBuffer.data) = some [30] ∧
      (t.hit_sbt_buffer.map SbtBuffer.data) = some [40] := by
  decide

end SolRs

namespace SolRs

/-! Bit-packing helper lemmas for the 24 + 8 bit fields of
`InstanceDescriptor`. -/

theorem or_shl24_and_mask (x m : Nat) (hx : x < 2 ^ 24) :
    (x ||| m <<< 24) &&& 0x00ffffff = x := by
  have h1 : (0x00ffffff : Nat) = 2 ^ 24 - 1 := by norm_num
  rw [h1, Nat.and_pow_two_sub_one_eq_mod]
  apply Nat.eq_of_testBit_eq
  intro i
  rw [Nat.testBit_mod_two_pow, Nat.testBit_or, Nat.testBit_shiftLeft]
  by_cases h : i < 24
  · have h24 : ¬(24 ≤ i) := by omega
    simp [h, h24]
  · have hx' : Nat.testBit x i = false :=
      Nat.testBit_lt_two_pow
        (lt_of_lt_of_le hx (Nat.pow_le_pow_right (by norm_num) (by omega)))
    simp [h, hx']

theorem or_shl24_shr (x m : Nat) (hx : x < 2 ^ 24) :
    (x ||| m <<< 24) >>> 24 = m := by
  apply Nat.eq_of_testBit_eq
  intro i
  rw [Nat.testBit_shiftRight, Nat.testBit_or, Nat.testBit_shiftLeft]
  have hx' : Nat.testBit x (24 + i) = false :=
    Nat.testBit_lt_two_pow
      (lt_of_lt_of_le hx (Nat.pow_le_pow_right (by norm_num) (by omega)))
  have h24 : (24 : Nat) ≤ 24 + i := by omega
  simp [hx', h24]

theorem shl24_mod_u32 (f : Nat) : (f <<< 24) % 2 ^ 32 = (f % 2 ^ 8) <<< 24 := by
  rw [Nat.shiftLeft_eq, Nat.shiftLeft_eq]
  omega

theorem and_mask24_lt (x : Nat) : x &&& 0x00ffffff < 2 ^ 24 := by
  have h1 : (0x00ffffff : Nat) = 2 ^ 24 - 1 := by norm_num
  rw [h1, Nat.and_pow_two_sub_one_eq_mod]
  exact Nat.mod_lt _ (by norm_num)

end SolRs

namespace SolRs

/-- `glam::Mat4`, laid out as glam stores it: four columns
(`x_axis` .. `w_axis`) of four components each.  Field `ab` is component
`b` of axis (column) `a`, so the memory order of the sixteen scalars is
`xx, xy, xz, xw, yx, ..., ww`.  The scalar type is a parameter: `f32`
numerics (such as `inverse`) stay abstract. -/
structure Mat4 (α : Type) where
  xx : α
  xy : α
  xz : α
  xw : α
  yx : α
  yy : α
  yz : α
  yw : α
  zx : α
  zy : α
  zz : α
  zw : α
  wx : α
  wy : α
  wz : α
  ww : α
  deriving DecidableEq

/-- `glam::Mat4::transpose`: column `a` of the result is row `a` of the
argument. -/
def Mat4.transpose {α : Type} (m : Mat4 α) : Mat4 α where
  xx := m.xx
  xy := m.yx
  xz := m.zx
  xw := m.wx
  yx := m.xy
  yy := m.yy
  yz := m.zy
  yw := m.wy
  zx := m.xz
  zy := m.yz
  zz := m.zz
  zw := m.wz
  wx := m.xw
  wy := m.yw
  wz := m.zw
  ww := m.ww

/-- `glam::Mat4::identity`. -/
def Mat4.identity {α : Type} [Zero α] [One α] : Mat4 α :=
  ⟨1, 0, 0, 0, 0, 1, 0, 0, 0, 0, 1, 0, 0, 0, 0, 1⟩

/-- The `std::mem::transmute_copy::<glam::Mat4, [f32; 12]>` in
`TLAS::generate`: the first twelve scalars of the matrix in memory
order, i.e. its first three columns. -/
def Mat4.transmute_copy_12 {α : Type} (m : Mat4 α) : List α :=
  [m.xx, m.xy, m.xz, m.xw, m.yx, m.yy, m.yz, m.yw, m.zx, m.zy, m.zz, m.zw]

/-- `InstanceDescriptor` of `src/ray/acceleration.rs` (lines 293-300):
the 64-byte wire-format instance record consumed by the TLAS build. -/
structure InstanceDescriptor (α : Type) where
  transform : List α
  instance_id_and_mask : Nat
  instance_offset_and_flags : Nat
  acceleration_handle : Nat
  deriving DecidableEq

/-- `InstanceDescriptor::set_id`: `id & 0x00ffffff` OR-ed into the low
24 bits. -/
def InstanceDescriptor.set_id {α : Type} (d : InstanceDescriptor α)
    (id : Nat) : InstanceDescriptor α :=
  { d with instance_id_and_mask := d.instance_id_and_mask ||| (id &&& 0x00ffffff) }

/-- `InstanceDescriptor::set_mask`: the mask is a `u8` in the source
(`% 2 ^ 8` records that type bound), widened and shifted into the top
byte. -/
def InstanceDescriptor.set_mask {α : Type} (d : InstanceDescriptor α)
    (mask : Nat) : InstanceDescriptor α :=
  { d with instance_id_and_mask := d.instance_id_and_mask ||| (mask % 2 ^ 8) <<< 24 }

/-- `InstanceDescriptor::set_offset`: `offset & 0x00ffffff` OR-ed into
the low 24 bits. -/
def InstanceDescriptor.set_offset {α : Type} (d : InstanceDescriptor α)
    (offset : Nat) : InstanceDescriptor α :=
  { d with
    instance_offset_and_flags := d.instance_offset_and_flags ||| (offset &&& 0x00ffffff) }

/-- `InstanceDescriptor::set_flags`: the raw `u32` flag bits shifted left
by 24, the `u32` shift discarding the high bits (`% 2 ^ 32`). -/
def InstanceDescriptor.set_flags {α : Type} (d : InstanceDescriptor α)
    (flags : Nat) : InstanceDescriptor α :=
  { d with
    instance_offset_and_flags := d.instance_offset_and_flags ||| (flags <<< 24) % 2 ^ 32 }

/-- `InstanceDescriptor::new` (acceleration.rs lines 302-322): start from
zeroed packed words and apply `set_id`, `set_mask`, `set_offset`,
`set_flags` in order. -/
def InstanceDescriptor.new {α : Type} (transform : List α) (id mask offset flags : Nat)
    (acceleration_handle : Nat) : InstanceDescriptor α :=
  (((({ transform := transform
        instance_id_and_mask := 0
        instance_offset_and_flags := 0
        acceleration_handle := acceleration_handle } : InstanceDescriptor α).set_id
          id).set_mask mask).set_offset offset).set_flags flags

/-- C5: packing id / mask / offset / flags with `InstanceDescriptor::new`
and then extracting the low 24 bits and the high 8 bits of
`instance_id_and_mask` and `instance_offset_and_flags` recovers the four
inputs exactly whenever `id < 2^24`, `mask < 2^8`, `offset < 2^24` and
`flags < 2^8`; and for arbitrary (out-of-range) `id` or `offset` the
stored low 24 bits are the input truncated by bitwise AND with
`0x00ffffff`. -/
theorem instance_descriptor_pack_roundtrip {α : Type} (transform : List α)
    (id mask offset flags handle : Nat)
    (hid : id < 2 ^ 24) (hmask : mask < 2 ^ 8)
    (hoff : offset < 2 ^ 24) (hfl : flags < 2 ^ 8) :
    ((InstanceDescriptor.new transform id mask offset flags handle).instance_id_and_mask
        &&& 0x00ffffff = id ∧
      (InstanceDescriptor.new transform id mask offset flags handle).instance_id_and_mask
        >>> 24 = mask ∧
      (InstanceDescriptor.new transform id mask offset flags
            handle).instance_offset_and_flags &&& 0x00ffffff = offset ∧
      (InstanceDescriptor.new transform id mask offset flags
            handle).instance_offset_and_flags >>> 24 = flags) ∧
    ∀ id2 offset2 : Nat,
      (InstanceDescriptor.new transform id2 mask offset2 flags
            handle).instance_id_and_mask &&& 0x00ffffff = id2 &&& 0x00ffffff ∧
      (InstanceDescriptor.new transform id2 mask offset2 flags
            handle).instance_offset_and_flags &&& 0x00ffffff = offset2 &&& 0x00ffffff := by
  have hmask24 : ∀ x : Nat, x &&& 0x00ffffff = x % 2 ^ 24 := fun x => by
    have h1 : (0x00ffffff : Nat) = 2 ^ 24 - 1 := by norm_num
    rw [h1, Nat.and_pow_two_sub_one_eq_mod]
  have hfl32 : ∀ g : Nat, g <<< 24 % 4294967296 = (g % 256) <<< 24 := fun g => by
    rw [Nat.shiftLeft_eq, Nat.shiftLeft_eq]
    have h24 : (2 : Nat) ^ 24 = 16777216 := by norm_num
    rw [h24]
    omega
  have hpack :
      ∀ x o f : Nat,
        (InstanceDescriptor.new transform x mask o f handle).instance_id_and_mask =
          (x &&& 0x00ffffff) ||| (mask % 2 ^ 8) <<< 24 := fun x o f => by
    simp [InstanceDescriptor.new, InstanceDescriptor.set_id, InstanceDescriptor.set_mask,
      InstanceDescriptor.set_offset, InstanceDescriptor.set_flags]
  have hpack2 :
      ∀ x o f : Nat,
        (InstanceDescriptor.new transform x mask o f handle).instance_offset_and_flags =
          (o &&& 0x00ffffff) ||| (f % 2 ^ 8) <<< 24 := fun x o f => by
    simp [InstanceDescriptor.new, InstanceDescriptor.set_id, InstanceDescriptor.set_mask,
      InstanceDescriptor.set_offset, InstanceDescriptor.set_flags, hfl32]
  refine ⟨⟨?_, ?_, ?_, ?_⟩, fun id2 offset2 => ⟨?_, ?_⟩⟩
  · rw [hpack id offset flags, or_shl24_and_mask _ _ (and_mask24_lt id), hmask24]
    exact Nat.mod_eq_of_lt hid
  · rw [hpack id offset flags, or_shl24_shr _ _ (and_mask24_lt id)]
    exact Nat.mod_eq_of_lt hmask
  · rw [hpack2 id offset flags, or_shl24_and_mask _ _ (and_mask24_lt offset), hmask24]
    exact Nat.mod_eq_of_lt hoff
  · rw [hpack2 id offset flags, or_shl24_shr _ _ (and_mask24_lt offset)]
    exact Nat.mod_eq_of_lt hfl
  · rw [hpack id2 offset2 flags, or_shl24_and_mask _ _ (and_mask24_lt id2)]
  · rw [hpack2 id2 offset2 flags, or_shl24_and_mask _ _ (and_mask24_lt offset2)]

/-- C5 witness: the roundtrip theorem instantiated at id 5, mask 7,
offset 9, flags 1. -/
theorem instance_descriptor_pack_roundtrip_witness :
    (5 : Nat) < 2 ^ 24 ∧ (7 : Nat) < 2 ^ 8 ∧ (9 : Nat) < 2 ^ 24 ∧ (1 : Nat) < 2 ^ 8 ∧
    (((InstanceDescriptor.new ([] : List Nat) 5 7 9 1 77).instance_id_and_mask
          &&& 0x00ffffff = 5 ∧
        (InstanceDescriptor.new ([] : List Nat) 5 7 9 1 77).instance_id_and_mask
          >>> 24 = 7 ∧
        (InstanceDescriptor.new ([] : List Nat) 5 7 9 1
              77).instance_offset_and_flags &&& 0x00ffffff = 9 ∧
        (InstanceDescriptor.new ([] : List Nat) 5 7 9 1
              77).instance_offset_and_flags >>> 24 = 1) ∧
      ∀ id2 offset2 : Nat,
        (InstanceDescriptor.new ([] : List Nat) id2 7 offset2 1
              77).instance_id_and_mask &&& 0x00ffffff = id2 &&& 0x00ffffff ∧
        (InstanceDescriptor.new ([] : List Nat) id2 7 offset2 1
              77).instance_offset_and_flags &&& 0x00ffffff = offset2 &&& 0x00ffffff) :=
  ⟨by norm_num, by norm_num, by norm_num, by norm_num,
    instance_descriptor_pack_roundtrip [] 5 7 9 1 77 (by norm_num) (by norm_num)
      (by norm_num) (by norm_num)⟩

end SolRs

namespace SolRs

/-- Raw value of `vk::GeometryFlagsKHR::OPAQUE`. -/
def GEOMETRY_OPAQUE : Nat := 1

/-- Raw value of `vk::GeometryInstanceFlagsNV::TRIANGLE_CULL_DISABLE_KHR`
(alias of `TRIANGLE_FACING_CULL_DISABLE`). -/
def GEOMETRY_INSTANCE_TRIANGLE_CULL_DISABLE : Nat := 1

/-- Raw value of `vk::GeometryInstanceFlagsKHR::FORCE_OPAQUE`. -/
def GEOMETRY_INSTANCE_FORCE_OPAQUE : Nat := 4

/-- Raw value of `vk::BuildAccelerationStructureFlagsKHR::ALLOW_UPDATE`. -/
def BUILD_ALLOW_UPDATE : Nat := 1

/-- Raw value of
`vk::BuildAccelerationStructureFlagsKHR::PREFER_FAST_TRACE`. -/
def BUILD_PREFER_FAST_TRACE : Nat := 4

/-- Raw value of `vk::AccessFlags::ACCELERATION_STRUCTURE_READ_KHR`. -/
def ACCESS_ACCELERATION_STRUCTURE_READ : Nat := 0x00200000

/-- Raw value of `vk::AccessFlags::ACCELERATION_STRUCTURE_WRITE_KHR`. -/
def ACCESS_ACCELERATION_STRUCTURE_WRITE : Nat := 0x00400000

/-- Commands recorded into the command buffer by the builders:
`cmd_build_acceleration_structure` (with its structure type, build
flags, instance count, update flag, destination, previous/source
structure — 0 for null — and scratch buffer) and
`cmd_pipeline_barrier` with its access masks. -/
inductive RecordedCmd where
  | build_accel (is_top_level : Bool) (flags : Nat) (instance_count : Nat)
      (update : Bool) (dst : Nat) (previous : Nat) (scratch : Nat)
  | pipeline_barrier (src_access_mask dst_access_mask : Nat)
  deriving DecidableEq

/-- Recording state threaded through the builders: the driver's next
fresh object handle and the commands recorded so far. -/
structure RecState where
  next_handle : Nat
  cmds : List RecordedCmd
  deriving DecidableEq

/-- Draw a fresh driver handle. -/
def RecState.fresh (st : RecState) : Nat × RecState :=
  (st.next_handle, { st with next_handle := st.next_handle + 1 })

/-- Record one command. -/
def RecState.record (st : RecState) (c : RecordedCmd) : RecState :=
  { st with cmds := st.cmds ++ [c] }

/-- `Buffer` of `src/buffer.rs`: handle, element count, byte size and
(for host-visible buffers) the element contents last written. -/
structure Buffer (β : Type) where
  handle : Nat
  element_count : Nat
  size : Nat
  data : List β
  deriving DecidableEq

/-- `Buffer::new` (buffer.rs lines 108-143): `assert_ne!(device_size, 0)`
then allocate; contents start uninitialised. -/
def Buffer.new (β : Type) (st : RecState) (device_size element_count : Nat) :
    Option (Buffer β × RecState) :=
  if device_size = 0 then none
  else
    let (h, st') := st.fresh
    some ({ handle := h, element_count := element_count, size := device_size, data := [] },
      st')

/-- `Buffer::from_data` (buffer.rs lines 145-218):
`assert!(!data.is_empty())`, size = `size_of_val(data)` =
`elem_size * data.len()`, element count = `data.len()`, and the data is
copied in. -/
def Buffer.from_data {β : Type} (st : RecState) (elem_size : Nat) (data : List β) :
    Option (Buffer β × RecState) :=
  if data.isEmpty then none
  else
    let (h, st') := st.fresh
    some
      ({ handle := h, element_count := data.length, size := elem_size * data.length,
         data := data }, st')

/-- `Buffer::update` (buffer.rs lines 220-237): overwrite the mapped
contents; element count and size are untouched. -/
def Buffer.update {β : Type} (b : Buffer β) (data : List β) : Buffer β :=
  { b with data := data }

/-- One `vk_mem` memory requirement answer. -/
structure MemorySpec where
  size : Nat
  type_bits : Nat
  deriving DecidableEq

/-- The device oracle for the acceleration-structure builders: memory
requirement queries (keyed by the structure handle) and
`get_acceleration_structure_handle` (the u64 address for a structure
handle). -/
structure Device where
  object_mem_req : Nat → MemorySpec
  build_scratch_mem_req : Nat → MemorySpec
  update_scratch_mem_req : Nat → MemorySpec
  accel_handle_u64 : Nat → Nat

/-- `AccelerationStructure::compute_buffer_memory` (acceleration.rs
lines 29-78): result sizing from the OBJECT query; scratch sizing is the
max of the BUILD_SCRATCH and UPDATE_SCRATCH sizes, with the type bits of
the BUILD_SCRATCH answer. -/
def compute_buffer_memory (dev : Device) (acceleration_structure : Nat) :
    MemorySpec × MemorySpec :=
  let result := dev.object_mem_req acceleration_structure
  let mem_reqs := dev.build_scratch_mem_req acceleration_structure
  let scratch_update_size := (dev.update_scratch_mem_req acceleration_structure).size
  let scratch_size :=
    if mem_reqs.size > scratch_update_size then mem_reqs.size else scratch_update_size
  (result, { size := scratch_size, type_bits := mem_reqs.type_bits })

/-- The `AccelerationStructure` aggregate of acceleration.rs. -/
structure AccelerationStructure where
  accel_struct : Nat
  accel_struct_flags : Nat
  scratch_buffer : Buffer Nat
  buffer : Buffer Nat
  deriving DecidableEq

/-- `Resource::handle` for `AccelerationStructure`. -/
def AccelerationStructure.handle (a : AccelerationStructure) : Nat :=
  a.accel_struct

/-- `GeometryInstance` of acceleration.rs (lines 5-13). -/
structure GeometryInstance (α : Type) where
  vertex_buffer : Nat
  vertex_count : Nat
  vertex_offset : Nat
  index_buffer : Option Nat
  index_count : Option Nat
  index_offset : Option Nat
  transform : Mat4 α
  deriving DecidableEq

/-- The `vk::AccelerationStructureGeometryTrianglesDataKHR` record built
per geometry in `BLAS::new`. -/
structure GeometryTrianglesData where
  vertex_data : Nat
  vertex_offset : Nat
  vertex_count : Nat
  vertex_stride : Nat
  index_data : Option Nat
  index_offset : Option Nat
  index_count : Option Nat
  deriving DecidableEq

/-- A geometry entry of the `geometries` vector of `BLAS::new`:
triangles plus the geometry flags. -/
structure AccelGeometry where
  triangles : GeometryTrianglesData
  flags : Nat
  deriving DecidableEq

/-- The per-geometry body of the loop in `BLAS::new` (acceleration.rs
lines 114-155): opaque flag, and the indexed / non-indexed triangle
description.  The `unwrap`s of `index_offset` / `index_count` in the
indexed branch are modelled by the failing `none` case. -/
def geometry_from_instance {α : Type} (vertex_stride : Nat) (opaque_flag : Bool)
    (geo : GeometryInstance α) : Option AccelGeometry :=
  let flags := if opaque_flag then GEOMETRY_OPAQUE else 0
  match geo.index_buffer with
  | some ib =>
    match geo.index_offset, geo.index_count with
    | some io, some ic =>
      some
        { triangles :=
            { vertex_data := geo.vertex_buffer
              vertex_offset := geo.vertex_offset
              vertex_count := geo.vertex_count
              vertex_stride := vertex_stride
              index_data := some ib
              index_offset := some io
              index_count := some ic }
          flags := flags }
    | _, _ => none
  | none =>
    some
      { triangles :=
          { vertex_data := geo.vertex_buffer
            vertex_offset := geo.vertex_offset
            vertex_count := geo.vertex_count
            vertex_stride := vertex_stride
            index_data := none
            index_offset := none
            index_count := none }
        flags := flags }

/-- `BLAS` of acceleration.rs (lines 97-102). -/
structure BLAS (α : Type) where
  accel_struct : AccelerationStructure
  geometries : List AccelGeometry
  transform : Mat4 α
  hit_group_index : Nat
  deriving DecidableEq

/-- `Resource::handle` for `BLAS`. -/
def BLAS.handle {α : Type} (b : BLAS α) : Nat :=
  b.accel_struct.handle

/-- `BLAS::get_transform`. -/
def BLAS.get_transform {α : Type} (b : BLAS α) : Mat4 α :=
  b.transform

/-- `BLAS::set_transform`. -/
def BLAS.set_transform {α : Type} (b : BLAS α) (transform : Mat4 α) : BLAS α :=
  { b with transform := transform }

/-- `BLAS::new` (acceleration.rs lines 104-249): build the geometry
descriptions, create the structure with PREFER_FAST_TRACE, size and
allocate backing and scratch buffers, record a BOTTOM_LEVEL build with
the update flag false against a null (0) previous structure, then record
the acceleration-structure read/write memory barrier.  The new BLAS
carries `hit_group_index = 0`. -/
def BLAS.new {α : Type} (dev : Device) (st : RecState)
    (geo_instances : List (GeometryInstance α)) (transform : Mat4 α)
    (vertex_stride : Nat) (opaque_flag : Bool) : Option (BLAS α × RecState) := do
  let geometries ← geo_instances.mapM (geometry_from_instance vertex_stride opaque_flag)
  let (accel_struct, st) := st.fresh
  let accel_struct_flags := BUILD_PREFER_FAST_TRACE
  let (result_specs, scratch_specs) := compute_buffer_memory dev accel_struct
  let (buffer, st) ← Buffer.new Nat st result_specs.size 1
  let (scratch_buffer, st) ← Buffer.new Nat st scratch_specs.size 1
  let st := st.record
    (RecordedCmd.build_accel false accel_struct_flags 0 false accel_struct 0
      scratch_buffer.handle)
  let st := st.record
    (RecordedCmd.pipeline_barrier
      (ACCESS_ACCELERATION_STRUCTURE_READ ||| ACCESS_ACCELERATION_STRUCTURE_WRITE)
      (ACCESS_ACCELERATION_STRUCTURE_READ ||| ACCESS_ACCELERATION_STRUCTURE_WRITE))
  pure
    ({ accel_struct :=
        { accel_struct := accel_struct
          accel_struct_flags := accel_struct_flags
          scratch_buffer := scratch_buffer
          buffer := buffer }
       geometries := geometries
       transform := transform
       hit_group_index := 0 }, st)

/-- `TLAS` of acceleration.rs (lines 345-349). -/
structure TLAS (α : Type) where
  instance_buffer : Buffer (InstanceDescriptor α)
  accel_struct : AccelerationStructure
  deriving DecidableEq

/-- `Resource::handle` for `TLAS`. -/
def TLAS.handle {α : Type} (t : TLAS α) : Nat :=
  t.accel_struct.handle

/-- The `for (i, blas) in blas.iter().enumerate()` packing loop of
`TLAS::generate` (acceleration.rs lines 444-462), with `k` the running
enumeration index: query the u64 structure handle, transpose the 4x4
transform and transmute-copy its first twelve scalars, and pack id `k`,
mask `0xff`, the BLAS's `hit_group_index` as offset and the
TRIANGLE_CULL_DISABLE flag. -/
def tlas_pack_instances {α : Type} (dev : Device) :
    Nat → List (BLAS α) → List (InstanceDescriptor α)
  | _, [] => []
  | k, b :: rest =>
    InstanceDescriptor.new (b.get_transform.transpose.transmute_copy_12) k 0xff
        b.hit_group_index GEOMETRY_INSTANCE_TRIANGLE_CULL_DISABLE
        (dev.accel_handle_u64 b.handle) ::
      tlas_pack_instances dev (k + 1) rest

/-- `TLAS::generate` (acceleration.rs lines 434-522): pack one
`InstanceDescriptor` per BLAS, upload them into the instance buffer,
record a TOP_LEVEL build against `previous` with the given update flag,
then record the acceleration-structure read/write barrier.  The
structure handle is never reassigned. -/
def TLAS.generate {α : Type} (dev : Device) (t : TLAS α) (st : RecState)
    (blas : List (BLAS α)) (previous : Nat) (update_only : Bool) :
    TLAS α × RecState :=
  let instances := tlas_pack_instances dev 0 blas
  let t' := { t with instance_buffer := t.instance_buffer.update instances }
  let st := st.record
    (RecordedCmd.build_accel true t.accel_struct.accel_struct_flags instances.length
      update_only t.accel_struct.handle previous t.accel_struct.scratch_buffer.handle)
  let st := st.record
    (RecordedCmd.pipeline_barrier
      (ACCESS_ACCELERATION_STRUCTURE_READ ||| ACCESS_ACCELERATION_STRUCTURE_WRITE)
      (ACCESS_ACCELERATION_STRUCTURE_READ ||| ACCESS_ACCELERATION_STRUCTURE_WRITE))
  (t', st)

/-- `TLAS::new` (acceleration.rs lines 351-406): create the structure
with the ALLOW_UPDATE build flag, allocate backing, scratch and instance
buffers (`64 * blas.len()` bytes — `assert_eq!` fixes the descriptor
size at 64), then `generate` with a null (0) previous structure and the
update flag false. -/
def TLAS.new {α : Type} (dev : Device) (st : RecState) (blas : List (BLAS α)) :
    Option (TLAS α × RecState) := do
  let (accel_struct, st) := st.fresh
  let accel_struct_flags := BUILD_ALLOW_UPDATE
  let (result_specs, scratch_specs) := compute_buffer_memory dev accel_struct
  let (buffer, st) ← Buffer.new Nat st result_specs.size 1
  let (scratch_buffer, st) ← Buffer.new Nat st scratch_specs.size 1
  let instance_size := 64 * blas.length
  let (instance_buffer, st) ← Buffer.new (InstanceDescriptor α) st instance_size blas.length
  let result : TLAS α :=
    { instance_buffer := instance_buffer
      accel_struct :=
        { accel_struct := accel_struct
          accel_struct_flags := accel_struct_flags
          scratch_buffer := scratch_buffer
          buffer := buffer } }
  let previous := 0
  pure (TLAS.generate dev result st blas previous false)

end SolRs

namespace SolRs

theorem shl24_mod_u32_num (g : Nat) : g <<< 24 % 4294967296 = (g % 256) <<< 24 := by
  rw [Nat.shiftLeft_eq, Nat.shiftLeft_eq]
  have h24 : (2 : Nat) ^ 24 = 16777216 := by norm_num
  rw [h24]
  omega

theorem instance_descriptor_new_transform {α : Type} (tr : List α)
    (id mask offset flags handle : Nat) :
    (InstanceDescriptor.new tr id mask offset flags handle).transform = tr := by
  simp [InstanceDescriptor.new, InstanceDescriptor.set_id, InstanceDescriptor.set_mask,
    InstanceDescriptor.set_offset, InstanceDescriptor.set_flags]

theorem instance_descriptor_new_handle {α : Type} (tr : List α)
    (id mask offset flags handle : Nat) :
    (InstanceDescriptor.new tr id mask offset flags handle).acceleration_handle = handle := by
  simp [InstanceDescriptor.new, InstanceDescriptor.set_id, InstanceDescriptor.set_mask,
    InstanceDescriptor.set_offset, InstanceDescriptor.set_flags]

theorem instance_descriptor_new_id_and_mask {α : Type} (tr : List α)
    (id mask offset flags handle : Nat) :
    (InstanceDescriptor.new tr id mask offset flags handle).instance_id_and_mask =
      (id &&& 0x00ffffff) ||| (mask % 2 ^ 8) <<< 24 := by
  simp [InstanceDescriptor.new, InstanceDescriptor.set_id, InstanceDescriptor.set_mask,
    InstanceDescriptor.set_offset, InstanceDescriptor.set_flags]

theorem instance_descriptor_new_offset_and_flags {α : Type} (tr : List α)
    (id mask offset flags handle : Nat) :
    (InstanceDescriptor.new tr id mask offset flags handle).instance_offset_and_flags =
      (offset &&& 0x00ffffff) ||| (flags % 2 ^ 8) <<< 24 := by
  simp [InstanceDescriptor.new, InstanceDescriptor.set_id, InstanceDescriptor.set_mask,
    InstanceDescriptor.set_offset, InstanceDescriptor.set_flags, shl24_mod_u32_num]

theorem tlas_pack_instances_getElem {α : Type} (dev : Device) (k : Nat)
    (blas : List (BLAS α)) (i : Nat) (b : BLAS α) (hb : blas[i]? = some b) :
    (tlas_pack_instances dev k blas)[i]? =
      some (InstanceDescriptor.new (b.get_transform.transpose.transmute_copy_12) (k + i)
        0xff b.hit_group_index GEOMETRY_INSTANCE_TRIANGLE_CULL_DISABLE
        (dev.accel_handle_u64 b.handle)) := by
  induction blas generalizing k i with
  | nil => simp at hb
  | cons hd tl ih =>
    cases i with
    | zero =>
      simp only [List.getElem?_cons_zero, Option.some.injEq] at hb
      subst hb
      simp [tlas_pack_instances]
    | succ n =>
      simp only [List.getElem?_cons_succ] at hb
      have h2 := ih (k + 1) n hb
      have h3 : k + 1 + n = k + (n + 1) := by omega
      rw [h3] at h2
      simp only [tlas_pack_instances, List.getElem?_cons_succ, h2]

/-- A device oracle over concrete values used by the concrete scenarios
below: every memory requirement answer has size 1, and the u64 address
of structure handle `h` is `h + 100`. -/
def devNat : Device :=
  { object_mem_req := fun _ => ⟨1, 0⟩
    build_scratch_mem_req := fun _ => ⟨1, 0⟩
    update_scratch_mem_req := fun _ => ⟨1, 0⟩
    accel_handle_u64 := fun h => h + 100 }

/-- A concrete one-byte GPU buffer. -/
def byteBuf : Buffer Nat :=
  { handle := 0, element_count := 1, size := 1, data := [] }

/-- A concrete BLAS with identity transform and hit group index 0. -/
def blasA : BLAS Nat :=
  { accel_struct :=
      { accel_struct := 3
        accel_struct_flags := BUILD_PREFER_FAST_TRACE
        scratch_buffer := byteBuf
        buffer := byteBuf }
    geometries := []
    transform := Mat4.identity
    hit_group_index := 0 }

/-- A concrete TLAS built with the ALLOW_UPDATE flag. -/
def tlasA : TLAS Nat :=
  { instance_buffer := { handle := 9, element_count := 1, size := 64, data := [] }
    accel_struct :=
      { accel_struct := 5
        accel_struct_flags := BUILD_ALLOW_UPDATE
        scratch_buffer := byteBuf
        buffer := byteBuf } }

/-- A concrete recording state. -/
def st0 : RecState :=
  { next_handle := 10, cmds := [] }

/-- C6 counterexample: the flags argument `TLAS::generate` passes to
`InstanceDescriptor::new` is `TRIANGLE_CULL_DISABLE` alone (raw value
1), so the packed flags byte of the record for `blasA` is 1 and its
FORCE_OPAQUE bit (raw value 4) is clear — the claim that the record
carries the flags "force opaque" and "disable back-face culling" fails
on the force-opaque half. -/
theorem tlas_generate_flags_lack_force_opaque :
    ((TLAS.generate devNat tlasA st0 [blasA] 0 false).1.instance_buffer.data.headD
        (InstanceDescriptor.new [] 0 0 0 0 0)).instance_offset_and_flags >>> 24 = 1 ∧
      GEOMETRY_INSTANCE_TRIANGLE_CULL_DISABLE = 1 ∧
      GEOMETRY_INSTANCE_FORCE_OPAQUE = 4 ∧
      (((TLAS.generate devNat tlasA st0 [blasA] 0 false).1.instance_buffer.data.headD
          (InstanceDescriptor.new [] 0 0 0 0 0)).instance_offset_and_flags >>> 24)
          &&& GEOMETRY_INSTANCE_FORCE_OPAQUE = 0 := by
  decide

/-- C6 (amended): the record packed for the i-th BLAS carries the
sequential instance id `i`, the all-admitting visibility mask `0xff`,
that BLAS's `hit_group_index` as the 24-bit shader-binding-table
offset, only the "disable back-face culling" instance flag
(`TRIANGLE_CULL_DISABLE`, raw 1 — "force opaque" is not set; opacity is
instead marked per geometry when the BLAS is built), the first twelve
scalars in memory order of the transposed 4x4 BLAS transform (the
homogeneous row of the original matrix being dropped), and the device's
u64 handle for that BLAS. -/
theorem tlas_generate_packs_instances {α : Type} (dev : Device) (t : TLAS α)
    (st : RecState) (blas : List (BLAS α)) (previous : Nat) (update_only : Bool)
    (i : Nat) (b : BLAS α) (hb : blas[i]? = some b) (hi : i < 2 ^ 24)
    (hg : b.hit_group_index < 2 ^ 24) :
    ∃ d : InstanceDescriptor α,
      (TLAS.generate dev t st blas previous update_only).1.instance_buffer.data[i]? =
          some d ∧
        d.transform = b.get_transform.transpose.transmute_copy_12 ∧
        d.instance_id_and_mask &&& 0x00ffffff = i ∧
        d.instance_id_and_mask >>> 24 = 0xff ∧
        d.instance_offset_and_flags &&& 0x00ffffff = b.hit_group_index ∧
        d.instance_offset_and_flags >>> 24 = GEOMETRY_INSTANCE_TRIANGLE_CULL_DISABLE ∧
        d.acceleration_handle = dev.accel_handle_u64 b.handle := by
  have hget := tlas_pack_instances_getElem dev 0 blas i b hb
  rw [Nat.zero_add] at hget
  refine ⟨InstanceDescriptor.new (b.get_transform.transpose.transmute_copy_12) i 0xff
      b.hit_group_index GEOMETRY_INSTANCE_TRIANGLE_CULL_DISABLE
      (dev.accel_handle_u64 b.handle), ?_, ?_, ?_, ?_, ?_, ?_, ?_⟩
  · simpa [TLAS.generate, Buffer.update] using hget
  · exact instance_descriptor_new_transform _ _ _ _ _ _
  · rw [instance_descriptor_new_id_and_mask,
      or_shl24_and_mask _ _ (and_mask24_lt i)]
    have : i &&& 0x00ffffff = i % 2 ^ 24 := by
      have h1 : (0x00ffffff : Nat) = 2 ^ 24 - 1 := by norm_num
      rw [h1, Nat.and_pow_two_sub_one_eq_mod]
    rw [this]
    exact Nat.mod_eq_of_lt hi
  · rw [instance_descriptor_new_id_and_mask,
      or_shl24_shr _ _ (and_mask24_lt i)]
    norm_num
  · rw [instance_descriptor_new_offset_and_flags,
      or_shl24_and_mask _ _ (and_mask24_lt b.hit_group_index)]
    have : b.hit_group_index &&& 0x00ffffff = b.hit_group_index % 2 ^ 24 := by
      have h1 : (0x00ffffff : Nat) = 2 ^ 24 - 1 := by norm_num
      rw [h1, Nat.and_pow_two_sub_one_eq_mod]
    rw [this]
    exact Nat.mod_eq_of_lt hg
  · rw [instance_descriptor_new_offset_and_flags,
      or_shl24_shr _ _ (and_mask24_lt b.hit_group_index)]
    decide
  · exact instance_descriptor_new_handle _ _ _ _ _ _

/-- C6 witness: the amended packing theorem instantiated on the
one-element BLAS list `[blasA]`. -/
theorem tlas_generate_packs_instances_witness :
    ([blasA][0]? = some blasA ∧ (0 : Nat) < 2 ^ 24 ∧ blasA.hit_group_index < 2 ^ 24) ∧
    (∃ d : InstanceDescriptor Nat,
      (TLAS.generate devNat tlasA st0 [blasA] 0 false).1.instance_buffer.data[0]? =
          some d ∧
        d.transform = blasA.get_transform.transpose.transmute_copy_12 ∧
        d.instance_id_and_mask &&& 0x00ffffff = 0 ∧
        d.instance_id_and_mask >>> 24 = 0xff ∧
        d.instance_offset_and_flags &&& 0x00ffffff = blasA.hit_group_index ∧
        d.instance_offset_and_flags >>> 24 = GEOMETRY_INSTANCE_TRIANGLE_CULL_DISABLE ∧
        d.acceleration_handle = devNat.accel_handle_u64 blasA.handle) :=
  ⟨⟨by decide, by norm_num, by decide⟩,
    tlas_generate_packs_instances devNat tlasA st0 [blasA] 0 false 0 blasA (by decide)
      (by norm_num) (by decide)⟩

end SolRs

namespace SolRs

/-- Characterisation of a successful `BLAS::new`: the structure handle,
flags, scratch handle, transform, hit group index and the two recorded
commands. -/
theorem blas_new_success {α : Type} (dev : Device) (st : RecState)
    (geo_instances : List (GeometryInstance α)) (transform : Mat4 α)
    (vertex_stride : Nat) (opaque_flag : Bool) (b : BLAS α) (st' : RecState)
    (h : BLAS.new dev st geo_instances transform vertex_stride opaque_flag =
      some (b, st')) :
    b.accel_struct.accel_struct = st.next_handle ∧
      b.accel_struct.accel_struct_flags = BUILD_PREFER_FAST_TRACE ∧
      b.accel_struct.scratch_buffer.handle = st.next_handle + 2 ∧
      b.transform = transform ∧
      b.hit_group_index = 0 ∧
      st'.next_handle = st.next_handle + 3 ∧
      st'.cmds = st.cmds ++
        [RecordedCmd.build_accel false BUILD_PREFER_FAST_TRACE 0 false st.next_handle 0
            (st.next_handle + 2),
          RecordedCmd.pipeline_barrier
            (ACCESS_ACCELERATION_STRUCTURE_READ ||| ACCESS_ACCELERATION_STRUCTURE_WRITE)
            (ACCESS_ACCELERATION_STRUCTURE_READ ||| ACCESS_ACCELERATION_STRUCTURE_WRITE)] := by
  cases hm : List.mapM (geometry_from_instance vertex_stride opaque_flag) geo_instances with
  | none =>
    unfold BLAS.new at h
    rw [hm] at h
    simp at h
  | some gs =>
    unfold BLAS.new at h
    rw [hm] at h
    simp only [Option.bind_eq_bind, Option.some_bind, RecState.fresh, compute_buffer_memory,
      Buffer.new, RecState.record, Option.pure_def] at h
    split at h
    · simp at h
    · split at h <;> split at h
      · simp at h
      · simp only [Option.some_bind, Option.some.injEq, Prod.mk.injEq] at h
        obtain ⟨hb, hst⟩ := h
        subst hb
        subst hst
        refine ⟨rfl, rfl, rfl, rfl, rfl, rfl, ?_⟩
        simp [List.append_assoc]
      · simp at h
      · simp only [Option.some_bind, Option.some.injEq, Prod.mk.injEq] at h
        obtain ⟨hb, hst⟩ := h
        subst hb
        subst hst
        refine ⟨rfl, rfl, rfl, rfl, rfl, rfl, ?_⟩
        simp [List.append_assoc]

/-- C9: a successful `BLAS::new` records exactly one build command — a
bottom-level build with the update flag `false` against a null (0)
previous structure — followed by a memory barrier whose source and
destination access masks are both
`ACCELERATION_STRUCTURE_READ ||| ACCELERATION_STRUCTURE_WRITE`, which
includes both the read and the write access bit. -/
theorem blas_new_build_mode_and_barrier {α : Type} (dev : Device) (st : RecState)
    (geo_instances : List (GeometryInstance α)) (transform : Mat4 α)
    (vertex_stride : Nat) (opaque_flag : Bool) (b : BLAS α) (st' : RecState)
    (h : BLAS.new dev st geo_instances transform vertex_stride opaque_flag =
      some (b, st')) :
    st'.cmds = st.cmds ++
        [RecordedCmd.build_accel false BUILD_PREFER_FAST_TRACE 0 false
            b.accel_struct.accel_struct 0 b.accel_struct.scratch_buffer.handle,
          RecordedCmd.pipeline_barrier
            (ACCESS_ACCELERATION_STRUCTURE_READ ||| ACCESS_ACCELERATION_STRUCTURE_WRITE)
            (ACCESS_ACCELERATION_STRUCTURE_READ ||| ACCESS_ACCELERATION_STRUCTURE_WRITE)] ∧
      (ACCESS_ACCELERATION_STRUCTURE_READ ||| ACCESS_ACCELERATION_STRUCTURE_WRITE) &&&
          ACCESS_ACCELERATION_STRUCTURE_READ ≠ 0 ∧
      (ACCESS_ACCELERATION_STRUCTURE_READ ||| ACCESS_ACCELERATION_STRUCTURE_WRITE) &&&
          ACCESS_ACCELERATION_STRUCTURE_WRITE ≠ 0 := by
  obtain ⟨h1, _, h3, _, _, _, h7⟩ :=
    blas_new_success dev st geo_instances transform vertex_stride opaque_flag b st' h
  refine ⟨?_, by decide, by decide⟩
  rw [h1, h3, h7]

/-- The concrete BLAS that `BLAS::new devNat st0 [] Mat4.identity 64 true`
produces. -/
def blasB : BLAS Nat :=
  { accel_struct :=
      { accel_struct := 10
        accel_struct_flags := BUILD_PREFER_FAST_TRACE
        scratch_buffer := { handle := 12, element_count := 1, size := 1, data := [] }
        buffer := { handle := 11, element_count := 1, size := 1, data := [] } }
    geometries := []
    transform := Mat4.identity
    hit_group_index := 0 }

/-- The recording state after that concrete `BLAS::new`. -/
def stB : RecState :=
  { next_handle := 13
    cmds :=
      [RecordedCmd.build_accel false BUILD_PREFER_FAST_TRACE 0 false 10 0 12,
        RecordedCmd.pipeline_barrier
          (ACCESS_ACCELERATION_STRUCTURE_READ ||| ACCESS_ACCELERATION_STRUCTURE_WRITE)
          (ACCESS_ACCELERATION_STRUCTURE_READ ||| ACCESS_ACCELERATION_STRUCTURE_WRITE)] }

/-- C9 witness: the build/barrier theorem instantiated on a concrete
`BLAS::new` call. -/
theorem blas_new_build_mode_and_barrier_witness :
    BLAS.new devNat st0 [] Mat4.identity 64 true = some (blasB, stB) ∧
      (stB.cmds = st0.cmds ++
          [RecordedCmd.build_accel false BUILD_PREFER_FAST_TRACE 0 false
              blasB.accel_struct.accel_struct 0 blasB.accel_struct.scratch_buffer.handle,
            RecordedCmd.pipeline_barrier
              (ACCESS_ACCELERATION_STRUCTURE_READ ||| ACCESS_ACCELERATION_STRUCTURE_WRITE)
              (ACCESS_ACCELERATION_STRUCTURE_READ |||
                ACCESS_ACCELERATION_STRUCTURE_WRITE)] ∧
        (ACCESS_ACCELERATION_STRUCTURE_READ ||| ACCESS_ACCELERATION_STRUCTURE_WRITE) &&&
            ACCESS_ACCELERATION_STRUCTURE_READ ≠ 0 ∧
        (ACCESS_ACCELERATION_STRUCTURE_READ ||| ACCESS_ACCELERATION_STRUCTURE_WRITE) &&&
            ACCESS_ACCELERATION_STRUCTURE_WRITE ≠ 0) :=
  ⟨by decide,
    blas_new_build_mode_and_barrier devNat st0 [] Mat4.identity 64 true blasB stB
      (by decide)⟩

/-- Every descriptor the packing loop emits from BLAS with hit group
index 0 has zero in its 24 offset bits. -/
theorem tlas_pack_instances_offset_zero {α : Type} (dev : Device) (k : Nat)
    (blas : List (BLAS α)) (hz : ∀ b ∈ blas, b.hit_group_index = 0) :
    ∀ d ∈ tlas_pack_instances dev k blas,
      d.instance_offset_and_flags &&& 0x00ffffff = 0 := by
  induction blas generalizing k with
  | nil => intro d hd; simp [tlas_pack_instances] at hd
  | cons hd tl ih =>
    intro d hdm
    simp only [tlas_pack_instances, List.mem_cons] at hdm
    rcases hdm with hdm | hdm
    · subst hdm
      rw [instance_descriptor_new_offset_and_flags, hz hd (List.mem_cons_self hd tl)]
      have h0 : (0 : Nat) &&& 0x00ffffff = 0 := by decide
      rw [h0, or_shl24_and_mask 0 _ (by norm_num)]
    · exact ih (k + 1) (fun b hb => hz b (List.mem_cons_of_mem hd hb)) d hdm

/-- C10: `BLAS::new` always sets `hit_group_index = 0`; the only
transform mutator `set_transform` preserves it; and every
`InstanceDescriptor` that `TLAS::generate` packs from BLAS whose hit
group index is 0 carries a 24-bit shader-binding-table offset of 0. -/
theorem blas_hit_group_index_always_zero {α : Type} :
    (∀ (dev : Device) (st : RecState) (geo_instances : List (GeometryInstance α))
        (transform : Mat4 α) (vertex_stride : Nat) (opaque_flag : Bool) (b : BLAS α)
        (st' : RecState),
        BLAS.new dev st geo_instances transform vertex_stride opaque_flag =
            some (b, st') →
          b.hit_group_index = 0) ∧
      (∀ (b : BLAS α) (t : Mat4 α),
        (b.set_transform t).hit_group_index = b.hit_group_index) ∧
      ∀ (dev : Device) (t : TLAS α) (st : RecState) (blas : List (BLAS α))
          (previous : Nat) (update_only : Bool),
        (∀ b ∈ blas, b.hit_group_index = 0) →
          ∀ d ∈ (TLAS.generate dev t st blas previous update_only).1.instance_buffer.data,
            d.instance_offset_and_flags &&& 0x00ffffff = 0 := by
  refine ⟨?_, ?_, ?_⟩
  · intro dev st geo_instances transform vertex_stride opaque_flag b st' h
    exact (blas_new_success dev st geo_instances transform vertex_stride opaque_flag b
      st' h).2.2.2.2.1
  · intro b t
    rfl
  · intro dev t st blas previous update_only hz d hd
    have hdata :
        (TLAS.generate dev t st blas previous update_only).1.instance_buffer.data =
          tlas_pack_instances dev 0 blas := by
      simp [TLAS.generate, Buffer.update]
    rw [hdata] at hd
    exact tlas_pack_instances_offset_zero dev 0 blas hz d hd

/-- C10 witness: the three parts instantiated on the concrete
`BLAS::new` run and the one-element BLAS list `[blasA]`. -/
theorem blas_hit_group_index_always_zero_witness :
    blasB.hit_group_index = 0 ∧
      (blasA.set_transform Mat4.identity).hit_group_index = blasA.hit_group_index ∧
      ((TLAS.generate devNat tlasA st0 [blasA] 0 false).1.instance_buffer.data.headD
          (InstanceDescriptor.new [] 0 0 0 0 0)).instance_offset_and_flags
          &&& 0x00ffffff = 0 :=
  ⟨(blas_hit_group_index_always_zero (α := Nat)).1 devNat st0 [] Mat4.identity 64 true
      blasB stB (by decide),
    (blas_hit_group_index_always_zero (α := Nat)).2.1 blasA Mat4.identity,
    (blas_hit_group_index_always_zero (α := Nat)).2.2 devNat tlasA st0 [blasA] 0 false
      (by decide) _ (by decide)⟩

end SolRs

namespace SolRs

/-- `vk::DescriptorBufferInfo`. -/
structure DescriptorBufferInfo where
  buffer : Nat
  offset : Nat
  range : Nat
  deriving DecidableEq

/-- `BufferPart` of `src/scene/mesh.rs`. -/
structure BufferPart where
  offset : Nat
  element_count : Nat
  deriving DecidableEq

/-- `PrimitiveSection` of `src/scene/mesh.rs` (lines 79-86). -/
structure PrimitiveSection where
  index : Nat
  vertices : BufferPart
  indices : Option BufferPart
  material_index : Option Nat
  deriving DecidableEq

/-- `size_of::<ModelVertex>()`: four `Vec4` fields of 16 bytes. -/
def MODEL_VERTEX_SIZE : Nat := 64

/-- `size_of::<MaterialInfo>()`: one `Vec4`, one `Vec3`, five `f32`. -/
def MATERIAL_INFO_SIZE : Nat := 48

/-- `size_of::<SceneInstance>()`: two `u32`, one `Vec2`, two `Mat4`. -/
def SCENE_INSTANCE_SIZE : Nat := 144

/-- `PrimitiveSection::get_vertex_count`. -/
def PrimitiveSection.get_vertex_count (p : PrimitiveSection) : Nat :=
  p.vertices.element_count

/-- `PrimitiveSection::get_vertex_offset_size`. -/
def PrimitiveSection.get_vertex_offset_size (p : PrimitiveSection) : Nat :=
  p.vertices.offset * MODEL_VERTEX_SIZE

/-- `PrimitiveSection::get_vertex_descriptor`. -/
def PrimitiveSection.get_vertex_descriptor (p : PrimitiveSection) (buffer : Buffer Nat) :
    DescriptorBufferInfo :=
  { buffer := buffer.handle
    offset := p.vertices.offset * MODEL_VERTEX_SIZE
    range := p.vertices.element_count * MODEL_VERTEX_SIZE }

/-- `PrimitiveSection::get_index_count`; the source `unwrap` of
`indices` is the `none` case. -/
def PrimitiveSection.get_index_count (p : PrimitiveSection) : Option Nat :=
  p.indices.map fun ip => ip.element_count

/-- `PrimitiveSection::get_index_offset_size::<T>` with
`elem_size = size_of::<T>()`. -/
def PrimitiveSection.get_index_offset_size (p : PrimitiveSection) (elem_size : Nat) :
    Option Nat :=
  p.indices.map fun ip => ip.offset * elem_size

/-- `PrimitiveSection::get_index_descriptor::<T>`. -/
def PrimitiveSection.get_index_descriptor (p : PrimitiveSection) (elem_size : Nat)
    (buffer : Buffer Nat) : Option DescriptorBufferInfo :=
  p.indices.map fun ip =>
    { buffer := buffer.handle
      offset := ip.offset * elem_size
      range := ip.element_count * elem_size }

/-- `PrimitiveSection::get_material_descriptor`. -/
def PrimitiveSection.get_material_descriptor (p : PrimitiveSection)
    (buffer : Buffer Nat) : Option DescriptorBufferInfo :=
  p.material_index.map fun mi =>
    { buffer := buffer.handle
      offset := mi * MATERIAL_INFO_SIZE
      range := MATERIAL_INFO_SIZE }

/-- `Mesh` of `src/scene/mesh.rs` (lines 137-145). -/
structure Mesh (α : Type) where
  name : String
  vertex_buffer : Buffer Nat
  index_buffer : Option (Buffer Nat)
  index_storage : Option (Buffer Nat)
  transform : Mat4 α
  primitive_sections : List PrimitiveSection
  deriving DecidableEq

/-- `Scene` of `src/scene/mod.rs`: the fields `SceneDescription`
consumes (meshes and the material buffer). -/
structure Scene (α : Type) where
  meshes : List (Mesh α)
  material_buffer : Buffer Nat
  deriving DecidableEq

/-- `SceneInstance` of `src/ray/mod.rs` (lines 16-24); the `padding`
field is GPU alignment filler with no observable content. -/
structure SceneInstance (α : Type) where
  id : Nat
  texture_offset : Nat
  transform : Mat4 α
  transform_it : Mat4 α
  deriving DecidableEq

/-- `SceneInstance::update_transform` (mod.rs lines 27-30):
`transform_it = transform.inverse().transpose()`, with the `glam` `f32`
matrix inverse abstracted as the oracle `inv`. -/
def SceneInstance.update_transform {α : Type} (inv : Mat4 α → Mat4 α)
    (s : SceneInstance α) (transform : Mat4 α) : SceneInstance α :=
  { s with transform := transform, transform_it := (inv transform).transpose }

/-- `HashMap::insert`: replace the value at an existing key, else add
the entry. -/
def hashmap_insert (m : List (Nat × List Nat)) (k : Nat) (v : List Nat) :
    List (Nat × List Nat) :=
  if m.any (fun p => p.1 = k) then m.map (fun p => if p.1 = k then (k, v) else p)
  else m ++ [(k, v)]

/-- `HashMap` key lookup (`map[&k]` panics on a missing key: `none`). -/
def hashmap_get (m : List (Nat × List Nat)) (k : Nat) : Option (List Nat) :=
  (m.find? (fun p => p.1 = k)).map Prod.snd

/-- `SceneDescription` of `src/ray/mod.rs` (lines 38-47). -/
structure SceneDescription (α : Type) where
  blas : List (BLAS α)
  tlas : TLAS α
  instances : List (SceneInstance α)
  instances_buffer : Buffer (SceneInstance α)
  vertex_descriptors : List DescriptorBufferInfo
  index_descriptors : List DescriptorBufferInfo
  mat_descriptors : List DescriptorBufferInfo
  blas_to_instances : List (Nat × List Nat)
  deriving DecidableEq

/-- The accumulator of the mesh/primitive loops of
`SceneDescription::from_meshes`. -/
structure SceneAcc (α : Type) where
  blas : List (BLAS α)
  instances : List (SceneInstance α)
  vertex_descriptors : List DescriptorBufferInfo
  index_descriptors : List DescriptorBufferInfo
  mat_descriptors : List DescriptorBufferInfo
  blas_to_instances : List (Nat × List Nat)
  st : RecState
  deriving DecidableEq

/-- The `match &mesh.index_buffer` triple of `from_meshes` (mod.rs
lines 82-89); the source `unwrap`s of the primitive's indices are the
`none` cases. -/
def mesh_index_triple {α : Type} (mesh : Mesh α) (primitive : PrimitiveSection) :
    Option (Option Nat × Option Nat × Option Nat) :=
  match mesh.index_buffer with
  | some buffer => do
    let ic ← primitive.get_index_count
    let io ← primitive.get_index_offset_size 4
    pure (some buffer.handle, some ic, some io)
  | none => pure (none, none, none)

/-- The `match &mesh.index_storage` push of `from_meshes`. -/
def push_index_descriptor {α : Type} (mesh : Mesh α) (primitive : PrimitiveSection)
    (ds : List DescriptorBufferInfo) : Option (List DescriptorBufferInfo) :=
  match mesh.index_storage with
  | some buffer => do
    let d ← primitive.get_index_descriptor 8 buffer
    pure (ds ++ [d])
  | none => pure ds

/-- The `match &material_buffer` push of `from_meshes`. -/
def push_material_descriptor (material_buffer : Option (Buffer Nat))
    (primitive : PrimitiveSection) (ds : List DescriptorBufferInfo) :
    Option (List DescriptorBufferInfo) :=
  match material_buffer with
  | some buffer => do
    let d ← primitive.get_material_descriptor buffer
    pure (ds ++ [d])
  | none => pure ds

/-- The body of the `for primitive in &mesh.primitive_sections` loop of
`SceneDescription::from_meshes` (mod.rs lines 79-132) for mesh number
`i` with baked transform `mt`: build the one-entry `GeometryInstance`
list, push the vertex / index / material descriptors, push a
`SceneInstance` with the next sequential id, build one BLAS, and insert
the fresh one-element index list into `blas_to_instances` under the
key `i` (`HashMap::insert` replaces any previous entry for `i`). -/
def from_meshes_step {α : Type} [Zero α] [One α] (dev : Device)
    (inv : Mat4 α → Mat4 α) (i : Nat) (mesh : Mesh α) (mt : Mat4 α)
    (material_buffer : Option (Buffer Nat)) (acc : SceneAcc α)
    (primitive : PrimitiveSection) : Option (SceneAcc α) := do
  let idx ← mesh_index_triple mesh primitive
  let geo : GeometryInstance α :=
    { vertex_buffer := mesh.vertex_buffer.handle
      vertex_count := primitive.get_vertex_count
      vertex_offset := primitive.get_vertex_offset_size
      index_buffer := idx.1
      index_count := idx.2.1
      index_offset := idx.2.2
      transform := Mat4.identity }
  let vertex_descriptors :=
    acc.vertex_descriptors ++ [primitive.get_vertex_descriptor mesh.vertex_buffer]
  let index_descriptors ← push_index_descriptor mesh primitive acc.index_descriptors
  let mat_descriptors ← push_material_descriptor material_buffer primitive
    acc.mat_descriptors
  let inst : SceneInstance α :=
    { id := acc.instances.length
      texture_offset := 0
      transform := mt
      transform_it := (inv mt).transpose }
  let instance_indices := [inst.id]
  let instances := acc.instances ++ [inst]
  let (new_blas, st) ← BLAS.new dev acc.st [geo] mt MODEL_VERTEX_SIZE true
  pure
    { blas := acc.blas ++ [new_blas]
      instances := instances
      vertex_descriptors := vertex_descriptors
      index_descriptors := index_descriptors
      mat_descriptors := mat_descriptors
      blas_to_instances := hashmap_insert acc.blas_to_instances i instance_indices
      st := st }

/-- The primitive loop of `from_meshes` for one mesh. -/
def from_meshes_prims {α : Type} [Zero α] [One α] (dev : Device)
    (inv : Mat4 α → Mat4 α) (i : Nat) (mesh : Mesh α) (mt : Mat4 α)
    (material_buffer : Option (Buffer Nat)) :
    SceneAcc α → List PrimitiveSection → Option (SceneAcc α)
  | acc, [] => some acc
  | acc, p :: ps => do
    let acc2 ← from_meshes_step dev inv i mesh mt material_buffer acc p
    from_meshes_prims dev inv i mesh mt material_buffer acc2 ps

/-- The `meshes.iter().enumerate().for_each(...)` loop of
`from_meshes`, with `i` the running mesh index;
`mesh_transforms[i]` panics when out of range (`none`). -/
def from_meshes_loop {α : Type} [Zero α] [One α] (dev : Device)
    (inv : Mat4 α → Mat4 α) (material_buffer : Option (Buffer Nat))
    (mesh_transforms : List (Mat4 α)) :
    Nat → List (Mesh α) → SceneAcc α → Option (SceneAcc α)
  | _, [], acc => some acc
  | i, mesh :: rest, acc => do
    let mt ← mesh_transforms[i]?
    let acc2 ← from_meshes_prims dev inv i mesh mt material_buffer acc
      mesh.primitive_sections
    from_meshes_loop dev inv material_buffer mesh_transforms (i + 1) rest acc2

/-- `SceneDescription::from_meshes` (mod.rs lines 59-154): run the mesh
loop, build the TLAS over all collected BLAS, and upload the
`SceneInstance` vector into its own buffer. -/
def SceneDescription.from_meshes {α : Type} [Zero α] [One α] (dev : Device)
    (inv : Mat4 α → Mat4 α) (st : RecState) (meshes : List (Mesh α))
    (mesh_transforms : List (Mat4 α)) (material_buffer : Option (Buffer Nat)) :
    Option (SceneDescription α × RecState) := do
  let acc0 : SceneAcc α :=
    { blas := [], instances := [], vertex_descriptors := [], index_descriptors := []
      mat_descriptors := [], blas_to_instances := [], st := st }
  let acc ← from_meshes_loop dev inv material_buffer mesh_transforms 0 meshes acc0
  let (tlas, st1) ← TLAS.new dev acc.st acc.blas
  let (instances_buffer, st2) ← Buffer.from_data st1 SCENE_INSTANCE_SIZE acc.instances
  pure
    ({ blas := acc.blas
       tlas := tlas
       instances := acc.instances
       instances_buffer := instances_buffer
       vertex_descriptors := acc.vertex_descriptors
       index_descriptors := acc.index_descriptors
       mat_descriptors := acc.mat_descriptors
       blas_to_instances := acc.blas_to_instances }, st2)

/-- `SceneDescription::from_scene` (mod.rs lines 50-57). -/
def SceneDescription.from_scene {α : Type} [Zero α] [One α] (dev : Device)
    (inv : Mat4 α → Mat4 α) (st : RecState) (scene : Scene α) :
    Option (SceneDescription α × RecState) :=
  SceneDescription.from_meshes dev inv st scene.meshes
    (scene.meshes.map Mesh.transform) (some scene.material_buffer)

/-- The `for instance_index in &self.blas_to_instances[&index]` loop of
`blas_transform`: update each listed instance in order;
`self.instances[j]` panics when out of range (`none`). -/
def apply_transform_updates {α : Type} (inv : Mat4 α → Mat4 α) (transform : Mat4 α) :
    List Nat → List (SceneInstance α) → Option (List (SceneInstance α))
  | [], insts => some insts
  | j :: js, insts =>
    match insts[j]? with
    | none => none
    | some s =>
      apply_transform_updates inv transform js
        (insts.set j (SceneInstance.update_transform inv s transform))

/-- `SceneDescription::blas_transform` (mod.rs lines 160-165): set the
BLAS transform and propagate transform and inverse-transpose to every
instance the map lists under `index`.  No buffer is touched. -/
def SceneDescription.blas_transform {α : Type} (inv : Mat4 α → Mat4 α)
    (sd : SceneDescription α) (transform : Mat4 α) (index : Nat) :
    Option (SceneDescription α) := do
  let b ← sd.blas[index]?
  let blas2 := sd.blas.set index (b.set_transform transform)
  let idxs ← hashmap_get sd.blas_to_instances index
  let instances2 ← apply_transform_updates inv transform idxs sd.instances
  pure { sd with blas := blas2, instances := instances2 }

/-- `SceneDescription::tlas_regenerate` (mod.rs lines 176-179):
`self.tlas.generate(cmd, &self.blas, self.tlas.handle(), true)`. -/
def SceneDescription.tlas_regenerate {α : Type} (dev : Device)
    (sd : SceneDescription α) (st : RecState) : SceneDescription α × RecState :=
  let out := TLAS.generate dev sd.tlas st sd.blas sd.tlas.handle true
  ({ sd with tlas := out.1 }, out.2)

/-- `SceneDescription::update` (mod.rs lines 189-191): re-upload the
instance vector into the instances buffer. -/
def SceneDescription.sync_instances (sd : SceneDescription Nat) : SceneDescription Nat :=
  { sd with instances_buffer := sd.instances_buffer.update sd.instances }

end SolRs

namespace SolRs

theorem apply_transform_updates_length {α : Type} (inv : Mat4 α → Mat4 α)
    (t : Mat4 α) (js : List Nat) (insts insts' : List (SceneInstance α))
    (h : apply_transform_updates inv t js insts = some insts') :
    insts'.length = insts.length := by
  induction js generalizing insts with
  | nil =>
    simp only [apply_transform_updates, Option.some.injEq] at h
    rw [← h]
  | cons j js ih =>
    simp only [apply_transform_updates] at h
    cases hj : insts[j]? with
    | none =>
      simp only [hj] at h
      exact Option.noConfusion h
    | some s =>
      simp only [hj] at h
      rw [ih _ h, List.length_set]

theorem apply_transform_updates_not_mem {α : Type} (inv : Mat4 α → Mat4 α)
    (t : Mat4 α) (js : List Nat) (insts insts' : List (SceneInstance α))
    (h : apply_transform_updates inv t js insts = some insts') (j : Nat)
    (hj : j ∉ js) : insts'[j]? = insts[j]? := by
  induction js generalizing insts with
  | nil =>
    simp only [apply_transform_updates, Option.some.injEq] at h
    rw [← h]
  | cons k ks ih =>
    simp only [apply_transform_updates] at h
    cases hk : insts[k]? with
    | none =>
      simp only [hk] at h
      exact Option.noConfusion h
    | some s =>
      simp only [hk] at h
      have hne : k ≠ j := fun e => hj (e ▸ List.mem_cons_self k ks)
      have hrest : j ∉ ks := fun e => hj (List.mem_cons_of_mem k e)
      rw [ih _ h hrest, List.getElem?_set_ne hne]

theorem apply_transform_updates_mem {α : Type} (inv : Mat4 α → Mat4 α)
    (t : Mat4 α) (js : List Nat) (insts insts' : List (SceneInstance α))
    (h : apply_transform_updates inv t js insts = some insts') (j : Nat)
    (hj : j ∈ js) :
    ∀ s, insts'[j]? = some s →
      s.transform = t ∧ s.transform_it = (inv t).transpose := by
  induction js generalizing insts with
  | nil => simp at hj
  | cons k ks ih =>
    simp only [apply_transform_updates] at h
    cases hk : insts[k]? with
    | none =>
      simp only [hk] at h
      exact Option.noConfusion h
    | some s0 =>
      simp only [hk] at h
      by_cases hmem : j ∈ ks
      · exact ih _ h hmem
      · have hjk : j = k := by
          rcases List.mem_cons.mp hj with he | he
          · exact he
          · exact absurd he hmem
        subst hjk
        intro s hs
        rw [apply_transform_updates_not_mem inv t ks _ _ h j hmem] at hs
        have hlt : j < insts.length := (List.getElem?_eq_some_iff.mp hk).1
        rw [List.getElem?_set_self (by simpa using hlt), Option.some.injEq] at hs
        subst hs
        exact ⟨rfl, rfl⟩

end SolRs

namespace SolRs

/-- C4: when `blas_transform(T, i)` succeeds on a scene description, the
instance vector keeps its length, every `SceneInstance` whose index the
`blas_to_instances` map lists under `i` ends with `transform = T` and
`transform_it = transpose (inverse T)`, every other `SceneInstance` is
unchanged, and no GPU buffer is modified: the instances buffer, the
TLAS (with its instance buffer and backing memory) and every BLAS's
structure and backing buffers are untouched. -/
theorem blas_transform_spec {α : Type} (inv : Mat4 α → Mat4 α)
    (sd : SceneDescription α) (transform : Mat4 α) (index : Nat)
    (sd' : SceneDescription α) (idxs : List Nat)
    (h : SceneDescription.blas_transform inv sd transform index = some sd')
    (hidx : hashmap_get sd.blas_to_instances index = some idxs) :
    sd'.instances.length = sd.instances.length ∧
      (∀ j ∈ idxs, ∀ s, sd'.instances[j]? = some s →
        s.transform = transform ∧ s.transform_it = (inv transform).transpose) ∧
      (∀ j, j ∉ idxs → sd'.instances[j]? = sd.instances[j]?) ∧
      sd'.instances_buffer = sd.instances_buffer ∧
      sd'.tlas = sd.tlas ∧
      ∀ k : Nat, (sd'.blas[k]?).map BLAS.accel_struct =
        (sd.blas[k]?).map BLAS.accel_struct := by
  simp only [SceneDescription.blas_transform, Option.bind_eq_bind, Option.bind_eq_some,
    Option.pure_def, Option.some.injEq] at h
  obtain ⟨b, hb, idxs2, hidx2, insts2, hup, hsd⟩ := h
  rw [hidx] at hidx2
  have heq : idxs = idxs2 := Option.some.inj hidx2
  subst heq
  subst hsd
  refine ⟨?_, ?_, ?_, rfl, rfl, ?_⟩
  · exact apply_transform_updates_length inv transform idxs sd.instances insts2 hup
  · intro j hj s hs
    exact apply_transform_updates_mem inv transform idxs _ _ hup j hj s hs
  · intro j hj
    exact apply_transform_updates_not_mem inv transform idxs _ _ hup j hj
  · intro k
    by_cases hk : k = index
    · subst hk
      have hlt : k < sd.blas.length := (List.getElem?_eq_some_iff.mp hb).1
      rw [List.getElem?_set_self (by simpa using hlt), hb]
      rfl
    · rw [List.getElem?_set_ne (Ne.symm hk)]

/-- The abstract matrix-inverse oracle used by the concrete scenarios:
on `Nat` scalars we take the identity function. -/
def invNat : Mat4 Nat → Mat4 Nat := fun m => m

/-- A concrete transform. -/
def matT : Mat4 Nat :=
  ⟨2, 0, 0, 0, 0, 3, 0, 0, 0, 0, 4, 0, 1, 2, 3, 1⟩

/-- A concrete scene instance with id 0. -/
def sceneInstA : SceneInstance Nat :=
  { id := 0, texture_offset := 0, transform := Mat4.identity,
    transform_it := Mat4.identity }

/-- A concrete scene instance with id 1. -/
def sceneInstB : SceneInstance Nat :=
  { id := 1, texture_offset := 0, transform := Mat4.identity,
    transform_it := Mat4.identity }

/-- A concrete instances buffer holding the two instances. -/
def instBufA : Buffer (SceneInstance Nat) :=
  { handle := 20, element_count := 2, size := 288, data := [sceneInstA, sceneInstB] }

/-- A concrete scene description: one BLAS, two instances, and the
instance-index map binding BLAS 0 to instance 0 only. -/
def sdA : SceneDescription Nat :=
  { blas := [blasA]
    tlas := tlasA
    instances := [sceneInstA, sceneInstB]
    instances_buffer := instBufA
    vertex_descriptors := []
    index_descriptors := []
    mat_descriptors := []
    blas_to_instances := [(0, [0])] }

/-- The result of `blas_transform matT 0` on `sdA`. -/
def sdAT : SceneDescription Nat :=
  { sdA with
    blas := [{ blasA with transform := matT }]
    instances := [SceneInstance.update_transform invNat sceneInstA matT, sceneInstB] }

/-- C4 witness: `blas_transform` on `sdA` at index 0 with transform
`matT` updates instance 0, leaves instance 1 and all buffers alone. -/
theorem blas_transform_spec_witness :
    sdAT.instances.length = sdA.instances.length ∧
      ((SceneInstance.update_transform invNat sceneInstA matT).transform = matT ∧
        (SceneInstance.update_transform invNat sceneInstA matT).transform_it =
          (invNat matT).transpose) ∧
      sdAT.instances[1]? = sdA.instances[1]? ∧
      sdAT.instances_buffer = sdA.instances_buffer ∧
      sdAT.tlas = sdA.tlas ∧
      (sdAT.blas[0]?).map BLAS.accel_struct = (sdA.blas[0]?).map BLAS.accel_struct := by
  have H := blas_transform_spec invNat sdA matT 0 sdAT [0] (by decide) (by decide)
  exact ⟨H.1, H.2.1 0 (by decide) (SceneInstance.update_transform invNat sceneInstA matT)
      (by decide), H.2.2.1 1 (by decide), H.2.2.2.1, H.2.2.2.2.1, H.2.2.2.2.2 0⟩

end SolRs

namespace SolRs

theorem tlas_pack_instances_length {α : Type} (dev : Device) (k : Nat)
    (blas : List (BLAS α)) :
    (tlas_pack_instances dev k blas).length = blas.length := by
  induction blas generalizing k with
  | nil => rfl
  | cons hd tl ih => simp [tlas_pack_instances, ih]

theorem tlas_new_flags {α : Type} (dev : Device) (st : RecState)
    (blas : List (BLAS α)) (t : TLAS α) (st' : RecState)
    (h : TLAS.new dev st blas = some (t, st')) :
    t.accel_struct.accel_struct_flags = BUILD_ALLOW_UPDATE := by
  unfold TLAS.new at h
  simp only [Option.bind_eq_bind, Option.some_bind, RecState.fresh, compute_buffer_memory,
    Buffer.new, Option.pure_def] at h
  repeat' split at h
  all_goals
    first
    | (exact Option.noConfusion h)
    | (simp only [Option.some_bind, Option.some.injEq] at h
       have h1 := congrArg
         (fun p : TLAS α × RecState => p.1.accel_struct.accel_struct_flags) h
       simpa [TLAS.generate, Buffer.update] using h1.symm)

/-- C7: `tlas_regenerate` is a refit: the new scene description's TLAS
keeps the same handle, and the call records exactly a top-level build
command whose update flag is `true` and whose previous/source structure
is the TLAS's own existing handle (as both destination and source),
followed by the usual barrier; and a TLAS is only ever created by
`TLAS::new`, which always sets the ALLOW_UPDATE build flag. -/
theorem tlas_regenerate_refit {α : Type} (dev : Device) (sd : SceneDescription α)
    (st : RecState) :
    ((SceneDescription.tlas_regenerate dev sd st).1.tlas.handle = sd.tlas.handle ∧
      (SceneDescription.tlas_regenerate dev sd st).2.cmds = st.cmds ++
        [RecordedCmd.build_accel true sd.tlas.accel_struct.accel_struct_flags
            sd.blas.length true sd.tlas.handle sd.tlas.handle
            sd.tlas.accel_struct.scratch_buffer.handle,
          RecordedCmd.pipeline_barrier
            (ACCESS_ACCELERATION_STRUCTURE_READ ||| ACCESS_ACCELERATION_STRUCTURE_WRITE)
            (ACCESS_ACCELERATION_STRUCTURE_READ |||
              ACCESS_ACCELERATION_STRUCTURE_WRITE)]) ∧
      ∀ (dev2 : Device) (st2 : RecState) (blas2 : List (BLAS α)) (t : TLAS α)
          (st2' : RecState),
        TLAS.new dev2 st2 blas2 = some (t, st2') →
          t.accel_struct.accel_struct_flags = BUILD_ALLOW_UPDATE := by
  refine ⟨⟨rfl, ?_⟩, ?_⟩
  · simp [SceneDescription.tlas_regenerate, TLAS.generate, RecState.record, TLAS.handle,
      AccelerationStructure.handle, tlas_pack_instances_length, List.append_assoc,
      Buffer.update]
  · intro dev2 st2 blas2 t st2' h
    exact tlas_new_flags dev2 st2 blas2 t st2' h

/-- The TLAS that `TLAS.new devNat st0 [blasA]` produces. -/
def tlasB : TLAS Nat :=
  { instance_buffer :=
      { handle := 13
        element_count := 1
        size := 64
        data :=
          [InstanceDescriptor.new [1, 0, 0, 0, 0, 1, 0, 0, 0, 0, 1, 0] 0 0xff 0
            GEOMETRY_INSTANCE_TRIANGLE_CULL_DISABLE 103] }
    accel_struct :=
      { accel_struct := 10
        accel_struct_flags := BUILD_ALLOW_UPDATE
        scratch_buffer := { handle := 12, element_count := 1, size := 1, data := [] }
        buffer := { handle := 11, element_count := 1, size := 1, data := [] } } }

/-- The recording state after that concrete `TLAS.new`. -/
def stT : RecState :=
  { next_handle := 14
    cmds :=
      [RecordedCmd.build_accel true BUILD_ALLOW_UPDATE 1 false 10 0 12,
        RecordedCmd.pipeline_barrier
          (ACCESS_ACCELERATION_STRUCTURE_READ ||| ACCESS_ACCELERATION_STRUCTURE_WRITE)
          (ACCESS_ACCELERATION_STRUCTURE_READ ||| ACCESS_ACCELERATION_STRUCTURE_WRITE)] }

/-- C7 witness: the refit theorem instantiated on the concrete scene
description `sdA`, and the creation-flag clause instantiated on the
concrete successful `TLAS.new devNat st0 [blasA]`. -/
theorem tlas_regenerate_refit_witness :
    ((SceneDescription.tlas_regenerate devNat sdA st0).1.tlas.handle = sdA.tlas.handle ∧
      (SceneDescription.tlas_regenerate devNat sdA st0).2.cmds = st0.cmds ++
        [RecordedCmd.build_accel true sdA.tlas.accel_struct.accel_struct_flags
            sdA.blas.length true sdA.tlas.handle sdA.tlas.handle
            sdA.tlas.accel_struct.scratch_buffer.handle,
          RecordedCmd.pipeline_barrier
            (ACCESS_ACCELERATION_STRUCTURE_READ ||| ACCESS_ACCELERATION_STRUCTURE_WRITE)
            (ACCESS_ACCELERATION_STRUCTURE_READ |||
              ACCESS_ACCELERATION_STRUCTURE_WRITE)]) ∧
      TLAS.new devNat st0 [blasA] = some (tlasB, stT) ∧
      tlasB.accel_struct.accel_struct_flags = BUILD_ALLOW_UPDATE :=
  ⟨(tlas_regenerate_refit devNat sdA st0).1, by decide,
    (tlas_regenerate_refit devNat sdA st0).2 devNat st0 [blasA] tlasB stT (by decide)⟩

end SolRs

namespace SolRs

theorem from_meshes_step_lengths {α : Type} [Zero α] [One α] (dev : Device)
    (inv : Mat4 α → Mat4 α) (i : Nat) (mesh : Mesh α) (mt : Mat4 α)
    (mb : Option (Buffer Nat)) (acc acc' : SceneAcc α) (p : PrimitiveSection)
    (h : from_meshes_step dev inv i mesh mt mb acc p = some acc') :
    acc'.blas.length = acc.blas.length + 1 ∧
      acc'.instances.length = acc.instances.length + 1 := by
  simp only [from_meshes_step, Option.bind_eq_bind, Option.bind_eq_some, Option.pure_def,
    Option.some.injEq] at h
  obtain ⟨idx, _, ids, _, mds, _, ⟨nb, st2⟩, _, hacc⟩ := h
  subst hacc
  simp

theorem from_meshes_prims_lengths {α : Type} [Zero α] [One α] (dev : Device)
    (inv : Mat4 α → Mat4 α) (i : Nat) (mesh : Mesh α) (mt : Mat4 α)
    (mb : Option (Buffer Nat)) (ps : List PrimitiveSection) (acc acc' : SceneAcc α)
    (h : from_meshes_prims dev inv i mesh mt mb acc ps = some acc') :
    acc'.blas.length = acc.blas.length + ps.length ∧
      acc'.instances.length = acc.instances.length + ps.length := by
  induction ps generalizing acc with
  | nil =>
    simp only [from_meshes_prims, Option.some.injEq] at h
    subst h
    simp
  | cons p ps ih =>
    simp only [from_meshes_prims, Option.bind_eq_bind, Option.bind_eq_some] at h
    obtain ⟨acc2, hstep, hrest⟩ := h
    have h1 := from_meshes_step_lengths dev inv i mesh mt mb acc acc2 p hstep
    have h2 := ih acc2 hrest
    constructor
    · rw [h2.1, h1.1]
      simp [List.length_cons]
      omega
    · rw [h2.2, h1.2]
      simp [List.length_cons]
      omega

theorem from_meshes_loop_lengths {α : Type} [Zero α] [One α] (dev : Device)
    (inv : Mat4 α → Mat4 α) (mb : Option (Buffer Nat))
    (mesh_transforms : List (Mat4 α)) (meshes : List (Mesh α)) (i : Nat)
    (acc acc' : SceneAcc α)
    (h : from_meshes_loop dev inv mb mesh_transforms i meshes acc = some acc') :
    acc'.blas.length = acc.blas.length +
        (meshes.map fun m => m.primitive_sections.length).sum ∧
      acc'.instances.length = acc.instances.length +
        (meshes.map fun m => m.primitive_sections.length).sum := by
  induction meshes generalizing i acc with
  | nil =>
    simp only [from_meshes_loop, Option.some.injEq] at h
    subst h
    simp
  | cons mesh rest ih =>
    simp only [from_meshes_loop, Option.bind_eq_bind, Option.bind_eq_some] at h
    obtain ⟨mt, _, acc2, hprims, hrest⟩ := h
    have h1 := from_meshes_prims_lengths dev inv i mesh mt mb
      mesh.primitive_sections acc acc2 hprims
    have h2 := ih (i + 1) acc2 hrest
    constructor
    · rw [h2.1, h1.1]
      simp [List.map_cons, List.sum_cons]
      omega
    · rw [h2.2, h1.2]
      simp [List.map_cons, List.sum_cons]
      omega

/-- C8: when `SceneDescription::from_scene` returns, it has produced
exactly one BLAS and one `SceneInstance` per primitive section of the
scene's meshes, and the instances buffer's element count equals that
same total. -/
theorem from_scene_counts {α : Type} [Zero α] [One α] (dev : Device)
    (inv : Mat4 α → Mat4 α) (st : RecState) (scene : Scene α)
    (sd : SceneDescription α) (st' : RecState)
    (h : SceneDescription.from_scene dev inv st scene = some (sd, st')) :
    sd.blas.length = (scene.meshes.map fun m => m.primitive_sections.length).sum ∧
      sd.instances.length =
        (scene.meshes.map fun m => m.primitive_sections.length).sum ∧
      sd.instances_buffer.element_count =
        (scene.meshes.map fun m => m.primitive_sections.length).sum := by
  unfold SceneDescription.from_scene SceneDescription.from_meshes at h
  simp only [Option.bind_eq_bind, Option.bind_eq_some, Option.pure_def, Option.some.injEq,
    Prod.mk.injEq] at h
  obtain ⟨acc, hacc, ⟨tl, st1⟩, htl, ⟨ib, st2⟩, hib, hsd, hst⟩ := h
  have hlen := from_meshes_loop_lengths dev inv (some scene.material_buffer)
    (scene.meshes.map Mesh.transform) scene.meshes 0 _ acc hacc
  simp only [List.length_nil, Nat.zero_add] at hlen
  unfold Buffer.from_data at hib
  split at hib
  · exact Option.noConfusion hib
  · simp only [Option.some.injEq, Prod.mk.injEq] at hib
    obtain ⟨hib1, _⟩ := hib
    subst hsd
    refine ⟨hlen.1, hlen.2, ?_⟩
    rw [← hib1]
    exact hlen.2

/-- A concrete primitive section (vertices 0..2, no indices,
material 0). -/
def primA : PrimitiveSection :=
  { index := 0, vertices := { offset := 0, element_count := 3 }, indices := none,
    material_index := some 0 }

/-- A second concrete primitive section of the same mesh. -/
def primB : PrimitiveSection :=
  { index := 1, vertices := { offset := 3, element_count := 3 }, indices := none,
    material_index := some 0 }

/-- A concrete mesh with two primitive sections and no index buffer. -/
def meshA : Mesh Nat :=
  { name := "mesh"
    vertex_buffer := { handle := 1, element_count := 6, size := 384, data := [] }
    index_buffer := none
    index_storage := none
    transform := Mat4.identity
    primitive_sections := [primA, primB] }

/-- A concrete scene: one mesh holding two primitive sections. -/
def sceneA : Scene Nat :=
  { meshes := [meshA]
    material_buffer := { handle := 2, element_count := 1, size := 48, data := [] } }

/-- C3: on `sceneA` — a single mesh with two primitive sections —
`from_scene` succeeds and leaves `blas_to_instances` holding a single
index in total (the per-primitive `HashMap::insert` under the mesh key
overwrote the first primitive's entry), while the instances vector and
the instances buffer both hold 2 records: the claimed equality of the
three totals fails. -/
theorem blas_to_instances_map_loses_indices :
    ((SceneDescription.from_scene devNat invNat st0 sceneA).map fun p =>
        ((p.1.blas_to_instances.map fun q => q.2.length).sum,
          p.1.instances.length, p.1.instances_buffer.element_count)) =
      some (1, 2, 2) ∧ (1 : Nat) ≠ 2 := by
  decide

/-- The concrete result of `from_scene` on `sceneA`. -/
def fromSceneA : SceneDescription Nat × RecState :=
  (SceneDescription.from_scene devNat invNat st0 sceneA).get (by decide)

/-- C8 witness: the counting theorem instantiated on `sceneA`, whose
meshes have 2 primitive sections in total. -/
theorem from_scene_counts_witness :
    fromSceneA.1.blas.length =
        (sceneA.meshes.map fun m => m.primitive_sections.length).sum ∧
      fromSceneA.1.instances.length =
        (sceneA.meshes.map fun m => m.primitive_sections.length).sum ∧
      fromSceneA.1.instances_buffer.element_count =
        (sceneA.meshes.map fun m => m.primitive_sections.length).sum :=
  from_scene_counts devNat invNat st0 sceneA fromSceneA.1 fromSceneA.2
    (by
      rw [← Option.some_get
        (show (SceneDescription.from_scene devNat invNat st0 sceneA).isSome by decide)]
      rfl)

end SolRs
